import Mathlib

/-!
Shallow embedding of `src/app.py` (a Flask service exposing a pre-trained
personality classifier) and proofs of the specification's claims about it.

The embedding models:
  * parsed JSON request bodies (`Json`), as Flask's `request.get_json` yields
    them as Python objects;
  * Python `str()` on such objects (`pyStr`), used by the code's
    `astype(str)` coercion of the categorical columns;
  * `pd.to_numeric(..., errors='coerce')` on one scalar (`numNorm`),
    including its string parsing (`parsePyFloat`);
  * the single-row DataFrame pipeline of the `/predict` handler
    (`buildRawRow`, `normalizeRow`, `featureVector`);
  * the handler itself (`predict`), with Python exceptions modelled as
    `Except String`;
  * the module-level artifact loading (`startupLoad`) and the two routes
    (`app`).

Abstractions, noted where they matter: JSON floats are carried as decimal
literals (mantissa and decimal-exponent), since IEEE-754 floating point is
outside the embedding; the classifier and label-encoder artifacts are opaque
binary files produced outside this repository, so they are modelled from the
spec as abstract values (`Classifier`, `LabelEncoder`).
-/

namespace PersonalityApp

/-- A parsed JSON value, as Flask's `request.get_json(force=True)` produces it
as a Python object: `null` becomes `None`, numbers become `int` or `float`
(a float is kept as its decimal literal: mantissa `m` and `e` digits after the
point, value `m / 10^e`), objects become `dict`s. -/
inductive Json where
  | null : Json
  | bool (b : Bool) : Json
  | int (n : Int) : Json
  | float (m : Int) (e : Nat) : Json
  | str (s : String) : Json
  | arr (items : List Json) : Json
  | obj (fields : List (String × Json)) : Json

/-- The rational value of a JSON float literal. -/
def floatVal (m : Int) (e : Nat) : Rat :=
  (m : Rat) / (10 : Rat) ^ e

/-- Python `str()` of a float that was parsed from a decimal literal with
mantissa `m` and `e` digits after the point: sign, integer part, point,
fractional part with trailing zeros trimmed (Python's shortest round-trip
repr agrees with this on short literals, the case this service documents). -/
def pyFloatStr (m : Int) (e : Nat) : String :=
  let sign := if m < 0 then "-" else ""
  let digits := toString m.natAbs
  let padded := String.mk (List.replicate (e + 1 - digits.length) '0') ++ digits
  let intPart := padded.take (padded.length - e)
  let fracPart := padded.drop (padded.length - e)
  let trimmed := (fracPart.toList.reverse.dropWhile (· == '0')).reverse
  let frac := if trimmed.isEmpty then "0" else String.mk trimmed
  sign ++ intPart ++ "." ++ frac

mutual

/-- Python `repr()` of a parsed-JSON value (string escaping inside reprs is
not modelled; it never reaches a comparison in the code). -/
def pyRepr : Json → String
  | Json.null => "None"
  | Json.bool true => "True"
  | Json.bool false => "False"
  | Json.int n => toString n
  | Json.float m e => pyFloatStr m e
  | Json.str s => "'" ++ s ++ "'"
  | Json.arr items => "[" ++ pyReprItems items ++ "]"
  | Json.obj fields => "\x7b" ++ pyReprFields fields ++ "\x7d"

/-- Comma-separated reprs of a Python list's items. -/
def pyReprItems : List Json → String
  | [] => ""
  | [x] => pyRepr x
  | x :: y :: rest => pyRepr x ++ ", " ++ pyReprItems (y :: rest)

/-- Comma-separated `'key': value` reprs of a Python dict's entries. -/
def pyReprFields : List (String × Json) → String
  | [] => ""
  | [(k, v)] => "'" ++ k ++ "': " ++ pyRepr v
  | (k, v) :: f :: rest => "'" ++ k ++ "': " ++ pyRepr v ++ ", " ++ pyReprFields (f :: rest)

end

/-- Python `str()` of a parsed-JSON value: a string is itself, everything
else prints as its repr. -/
def pyStr : Json → String
  | Json.str s => s
  | v => pyRepr v

/-- The Python type name of a parsed-JSON value, as it appears in
`AttributeError` messages. -/
def pyTypeName : Json → String
  | Json.null => "NoneType"
  | Json.bool _ => "bool"
  | Json.int _ => "int"
  | Json.float _ _ => "float"
  | Json.str _ => "str"
  | Json.arr _ => "list"
  | Json.obj _ => "dict"

/-- Whitespace that Python's float parsing strips. -/
def isPySpace (c : Char) : Bool :=
  c == ' ' || c == '\t' || c == '\n' || c == '\r' || c == '\x0b' || c == '\x0c'

/-- The value of a list of decimal digit characters. -/
def digitsVal (cs : List Char) : Nat :=
  cs.foldl (fun a c => a * 10 + (c.toNat - 48)) 0

/-- An optionally signed run of decimal digits (the exponent part of a float
literal); `none` when empty or not all digits. -/
def parseSignedDigits : List Char → Option Int
  | '+' :: ds => if ds.isEmpty || !ds.all (·.isDigit) then none else some (digitsVal ds)
  | '-' :: ds => if ds.isEmpty || !ds.all (·.isDigit) then none else some (-(digitsVal ds : Int))
  | ds => if ds.isEmpty || !ds.all (·.isDigit) then none else some (digitsVal ds)

/-- Numeric parsing of a string as `pd.to_numeric(..., errors='coerce')`
attempts it: optional surrounding whitespace, optional sign, decimal digits
with an optional point and an optional exponent. `none` models a parse
failure (which `coerce` turns into NaN). The IEEE special spellings
`inf`/`nan` are outside the rational embedding and are treated as unparsed;
`nan` would in any case land in the same missing-value sentinel. -/
def parsePyFloat (s : String) : Option Rat :=
  let cs := ((s.toList.dropWhile isPySpace).reverse.dropWhile isPySpace).reverse
  let signBody : Rat × List Char :=
    match cs with
    | '+' :: r => (1, r)
    | '-' :: r => (-1, r)
    | r => (1, r)
  let sign := signBody.1
  let body := signBody.2
  let ip := body.takeWhile Char.isDigit
  let afterInt := body.dropWhile Char.isDigit
  let fracRest : List Char × List Char :=
    match afterInt with
    | '.' :: r => (r.takeWhile Char.isDigit, r.dropWhile Char.isDigit)
    | r => ([], r)
  let fp := fracRest.1
  let rest := fracRest.2
  if ip.isEmpty && fp.isEmpty then none
  else
    let mantissa : Rat := (digitsVal (ip ++ fp) : Rat)
    let scale : Int := -(fp.length : Int)
    match rest with
    | [] => some (sign * mantissa * (10 : Rat) ^ scale)
    | c :: er =>
      if c == 'e' || c == 'E' then
        match parseSignedDigits er with
        | some ex => some (sign * mantissa * (10 : Rat) ^ (scale + ex))
        | none => none
      else none

/-- One cell of the single-row DataFrame after normalization: a number, or
pandas' NaN missing-value sentinel. -/
inductive Cell where
  | missing : Cell
  | num (v : Rat) : Cell
deriving DecidableEq

/-- Python's `str.lower` on one character, on the ASCII fragment the service
compares against (`"yes"` is ASCII, so the full Unicode table cannot change
the comparison's outcome). -/
def pyLowerChar (c : Char) : Char :=
  if 'A' ≤ c ∧ c ≤ 'Z' then Char.ofNat (c.toNat + 32) else c

/-- Python's `str.lower`. -/
def pyLower (s : String) : String :=
  String.mk (s.data.map pyLowerChar)

/-- `app.py` lines 107-111: the categorical columns `Stage_fear` and
`Drained_after_socializing`. A `None` cell (absent key or JSON `null`) takes
the `else` branch and becomes `0`; otherwise the value is `astype(str)`-ed
and mapped to `1` exactly when `x.lower() == 'yes'`, else `0`. -/
def catNorm : Option Json → Rat
  | none => 0
  | some Json.null => 0
  | some v => if pyLower (pyStr v) = "yes" then 1 else 0

/-- `app.py` lines 113-117: `pd.to_numeric(..., errors='coerce')` on one
cell of the five numeric columns. Absent keys and JSON `null` are `None`
and coerce to NaN; strings are parsed with `parsePyFloat`, failures
coercing to NaN; lists and dicts are unconvertible and coerce to NaN;
booleans pass through as their numeric value. -/
def numNorm : Option Json → Cell
  | none => Cell.missing
  | some Json.null => Cell.missing
  | some (Json.bool b) => Cell.num (if b then 1 else 0)
  | some (Json.int n) => Cell.num (n : Rat)
  | some (Json.float m e) => Cell.num (floatVal m e)
  | some (Json.str s) =>
    match parsePyFloat s with
    | some q => Cell.num q
    | none => Cell.missing
  | some (Json.arr _) => Cell.missing
  | some (Json.obj _) => Cell.missing

/-- Lookup in a Python dict built by parsing a JSON object: a duplicated key
keeps its last value, a missing key yields `None` (`dict.get`'s default). -/
def dictGet : List (String × Json) → String → Option Json
  | [], _ => none
  | (k, v) :: rest, f =>
    match dictGet rest f with
    | some w => some w
    | none => if k = f then some v else none

/-- `app.py` lines 94-102: `expected_feature_order`. -/
def expected_feature_order : List String :=
  ["Time_spent_Alone", "Stage_fear", "Social_event_attendance", "Going_outside",
   "Drained_after_socializing", "Friends_circle_size", "Post_frequency"]

/-- The single row of `input_df` right after `pd.DataFrame([input_features_dict])`:
the seven expected columns, each holding the request value or `None`. -/
structure RawRow where
  Time_spent_Alone : Option Json
  Stage_fear : Option Json
  Social_event_attendance : Option Json
  Going_outside : Option Json
  Drained_after_socializing : Option Json
  Friends_circle_size : Option Json
  Post_frequency : Option Json

/-- `app.py` line 104: `input_features_dict`, the comprehension
`\x7bfeature: request_data.get(feature) for feature in expected_feature_order\x7d`,
once `request_data` is known to be a dict with entries `fields`. -/
def buildRawRow (fields : List (String × Json)) : RawRow :=
  { Time_spent_Alone := dictGet fields "Time_spent_Alone"
    Stage_fear := dictGet fields "Stage_fear"
    Social_event_attendance := dictGet fields "Social_event_attendance"
    Going_outside := dictGet fields "Going_outside"
    Drained_after_socializing := dictGet fields "Drained_after_socializing"
    Friends_circle_size := dictGet fields "Friends_circle_size"
    Post_frequency := dictGet fields "Post_frequency" }

/-- The single row of `input_df` after both normalization loops. -/
structure NormRow where
  Time_spent_Alone : Cell
  Stage_fear : Cell
  Social_event_attendance : Cell
  Going_outside : Cell
  Drained_after_socializing : Cell
  Friends_circle_size : Cell
  Post_frequency : Cell
deriving DecidableEq

/-- `app.py` lines 106-117: the two `for col in ...` loops over the one-row
frame — the categorical columns via `catNorm`, the numeric ones via
`numNorm`. Every column is present (the dict was built with all seven keys),
so the `col in input_df.columns` tests are always true and the numeric
loop's `else` branch is dead. -/
def normalizeRow (r : RawRow) : NormRow :=
  { Time_spent_Alone := numNorm r.Time_spent_Alone
    Stage_fear := Cell.num (catNorm r.Stage_fear)
    Social_event_attendance := numNorm r.Social_event_attendance
    Going_outside := numNorm r.Going_outside
    Drained_after_socializing := Cell.num (catNorm r.Drained_after_socializing)
    Friends_circle_size := numNorm r.Friends_circle_size
    Post_frequency := numNorm r.Post_frequency }

/-- `app.py` line 119: `input_df = input_df[expected_feature_order]` — the
row read off in the fixed feature order, as the classifier receives it. -/
def NormRow.toVector (r : NormRow) : List Cell :=
  [r.Time_spent_Alone, r.Stage_fear, r.Social_event_attendance, r.Going_outside,
   r.Drained_after_socializing, r.Friends_circle_size, r.Post_frequency]

/-- The full normalization pipeline on a JSON object body: the fixed-order
feature vector the classifier is invoked on. -/
def featureVector (fields : List (String × Json)) : List Cell :=
  (normalizeRow (buildRawRow fields)).toVector

/-- Modelled from the spec: the trained classifier artifact
(`models/personality_model.joblib`), an opaque binary blob produced by the
external training notebook and absent from this repository. Its `predict` on
a single-row input yields one encoded class index, and — as any library call
— may raise, which the embedding renders as `Except.error`. -/
structure Classifier where
  predict : List Cell → Except String Nat

/-- Modelled from the spec: the label-encoder artifact
(`models/personality_label_encoder.joblib`), "a bidirectional mapping between
human-readable class names and the integer indices a classifier outputs",
also produced outside this repository. -/
structure LabelEncoder where
  classes : List String

/-- Modelled from the spec: `inverse_transform` on one encoded index —
the class name at that index, raising on an index outside the known classes. -/
def LabelEncoder.inverse_transform (le : LabelEncoder) (i : Nat) : Except String String :=
  match le.classes.get? i with
  | some label => Except.ok label
  | none => Except.error "y contains previously unseen labels"

/-- `app.py` lines 18-19: the process-wide globals `loaded_model` and
`loaded_le_personality`, each `None` until its artifact loads. -/
structure ModelState where
  loaded_model : Option Classifier
  loaded_le_personality : Option LabelEncoder

/-- Whether the Loaded Model State can serve traffic: exactly the test at
`app.py` line 87 (`loaded_model is None or loaded_le_personality is None`),
negated. -/
def ModelState.available (st : ModelState) : Bool :=
  st.loaded_model.isSome && st.loaded_le_personality.isSome

/-- `app.py` line 15: `MODEL_PATH`. -/
def MODEL_PATH : String := "models/personality_model.joblib"

/-- `app.py` line 16: `LABEL_ENCODER_PATH`. -/
def LABEL_ENCODER_PATH : String := "models/personality_label_encoder.joblib"

/-- `app.py` line 91: `request.get_json(force=True)`. A request body is
`some j` when it parses as JSON `j`, `none` when it is not valid JSON, in
which case Flask raises a `BadRequest` — an ordinary exception, caught by
the handler's `except` like any other (message per werkzeug's 400 text). -/
def getJsonForce : Option Json → Except String Json
  | some j => Except.ok j
  | none =>
    Except.error
      "400 Bad Request: The browser (or proxy) sent a request that this server could not understand."

/-- Python attribute access `request_data.get(feature)`: only a dict has
`.get`; every other parsed-JSON value raises an `AttributeError`. -/
def pyGet (request_data : Json) (feature : String) : Except String (Option Json) :=
  match request_data with
  | Json.obj fields => Except.ok (dictGet fields feature)
  | v => Except.error ("'" ++ pyTypeName v ++ "' object has no attribute 'get'")

/-- `app.py` line 104: `input_features_dict = \x7bfeature:
request_data.get(feature) for feature in expected_feature_order\x7d` — the
seven lookups in order, the first raising when `request_data` is not a dict. -/
def input_features (request_data : Json) : Except String RawRow := do
  let v1 ← pyGet request_data "Time_spent_Alone"
  let v2 ← pyGet request_data "Stage_fear"
  let v3 ← pyGet request_data "Social_event_attendance"
  let v4 ← pyGet request_data "Going_outside"
  let v5 ← pyGet request_data "Drained_after_socializing"
  let v6 ← pyGet request_data "Friends_circle_size"
  let v7 ← pyGet request_data "Post_frequency"
  return ⟨v1, v2, v3, v4, v5, v6, v7⟩

/-- `app.py` lines 90-124: the body of `predict`'s `try` block — parse the
body, assemble and normalize the row, run the classifier on the fixed-order
vector, decode the label. Each `match` propagates the first exception. -/
def predictCore (model : Classifier) (le : LabelEncoder) (raw : Option Json) :
    Except String String :=
  match getJsonForce raw with
  | Except.error e => Except.error e
  | Except.ok request_data =>
    match input_features request_data with
    | Except.error e => Except.error e
    | Except.ok row =>
      let input_df := (normalizeRow row).toVector
      match model.predict input_df with
      | Except.error e => Except.error e
      | Except.ok prediction_encoded =>
        match le.inverse_transform prediction_encoded with
        | Except.error e => Except.error e
        | Except.ok prediction_label => Except.ok prediction_label

/-- The JSON (or HTML) payload of an HTTP response of this service. -/
inductive RespBody where
  | jsonError (msg : String) : RespBody
  | jsonPrediction (label : String) : RespBody
  | html (page : String) : RespBody
deriving DecidableEq

/-- An HTTP response: status code and payload. -/
structure Response where
  status : Nat
  body : RespBody
deriving DecidableEq

/-- `app.py` lines 85-128: the `/predict` handler. The unavailable check
comes first and returns without touching the body; otherwise the `try`
block runs and any exception becomes the 500 error payload of line 128. -/
def predict (st : ModelState) (raw : Option Json) : Response :=
  match st.loaded_model, st.loaded_le_personality with
  | some model, some le =>
    match predictCore model le raw with
    | Except.ok label => ⟨200, RespBody.jsonPrediction label⟩
    | Except.error e =>
      ⟨500, RespBody.jsonError ("An internal server error occurred during prediction: " ++ e)⟩
  | _, _ =>
    ⟨500, RespBody.jsonError "Prediction service unavailable: Model not loaded on server."⟩

/-- The f-string of `app.py` lines 46-80 up to the one interpolation point
`\x7bpredict_endpoint\x7d` (the doubled braces of the source's JSON example
render as literal braces, written escaped here; the template has no Jinja
directives, so `render_template_string` returns it verbatim). -/
def welcomeHead : String :=
  "\n    <div style=\"font-family: Arial, sans-serif; text-align: center; margin-top: 50px; padding: 20px; background-color: #f9f9f9; border-radius: 10px; box-shadow: 0 4px 8px rgba(0,0,0,0.1);\">\n"
  ++ "        <h1 style=\"color: #333; border-bottom: 2px solid #4CAF50; padding-bottom: 10px; margin-bottom: 20px;\">\n"
  ++ "            Welcome to the Personality Prediction API!\n"
  ++ "        </h1>\n"
  ++ "        <p style=\"font-size: 1.1em; color: #555; line-height: 1.6;\">\n"
  ++ "            This API predicts whether a person is an Introvert or Extrovert based on provided characteristics.\n"
  ++ "        </p>\n"
  ++ "        <p style=\"font-size: 1.1em; color: #555; line-height: 1.6;\">\n"
  ++ "            To get a prediction, you need to send a <strong>POST request</strong> to the <strong><code>/predict</code></strong> endpoint.\n"
  ++ "        </p>\n"
  ++ "        <h2 style=\"color: #666; margin-top: 30px; border-bottom: 1px solid #ddd; padding-bottom: 5px;\">How to use it:</h2>\n"
  ++ "        <div style=\"background-color: #fff; border: 1px solid #e0e0e0; padding: 20px; border-radius: 8px; display: inline-block; text-align: left; max-width: 600px; margin: 20px auto;\">\n"
  ++ "            <p><strong>Endpoint:</strong> <code>"

/-- The rest of the f-string of `app.py` lines 46-80, after the
`predict_endpoint` interpolation. -/
def welcomeTail : String :=
  "</code></p>\n"
  ++ "            <p><strong>Method:</strong> <code>POST</code></p>\n"
  ++ "            <p><strong>Content-Type:</strong> <code>application/json</code></p>\n"
  ++ "            <p><strong>Body (JSON example):</strong></p>\n"
  ++ "            <pre style=\"background-color: #eee; padding: 15px; border-radius: 5px; overflow-x: auto; font-family: monospace; font-size: 0.9em; white-space: pre-wrap; word-wrap: break-word;\"><code>\x7b\n"
  ++ "    \"Time_spent_Alone\": 7.0,\n"
  ++ "    \"Stage_fear\": \"No\",\n"
  ++ "    \"Social_event_attendance\": 2.0,\n"
  ++ "    \"Going_outside\": 1.0,\n"
  ++ "    \"Drained_after_socializing\": \"Yes\",\n"
  ++ "    \"Friends_circle_size\": 2.0,\n"
  ++ "    \"Post_frequency\": 1.0\n"
  ++ "\x7d</code></pre>\n"
  ++ "            <p style=\"margin-top: 15px; font-size: 0.9em; color: #777;\">\n"
  ++ "                (Use the URL you see in your browser's address bar for the base host!)\n"
  ++ "            </p>\n"
  ++ "        </div>\n"
  ++ "        <p style=\"font-size: 0.9em; color: #777; margin-top: 20px;\">\n"
  ++ "            You can use tools like <code>curl</code> (in terminal), Postman, or Python's <code>requests</code> library to send the POST request.\n"
  ++ "        </p>\n"
  ++ "    </div>\n    "

/-- `app.py` lines 38-80: `welcome_message`, the page text with the example
endpoint URL built from the request's URL root (`api_host ++ "predict"`,
exactly `f"\x7bapi_host\x7dpredict"`). -/
def welcome_message (api_host : String) : String :=
  let predict_endpoint := api_host ++ "predict"
  welcomeHead ++ predict_endpoint ++ welcomeTail

/-- `app.py` lines 38-80: the `GET /` handler `home`. Flask wraps the
rendered template in a 200 response. -/
def home (url_root : String) : Response :=
  ⟨200, RespBody.html (welcome_message url_root)⟩

/-- The outcome of one `joblib.load` call: the value, a `FileNotFoundError`,
or any other exception (with its message). The filesystem and the joblib
format are external to this repository, so the outcome is a parameter. -/
inductive LoadResult (α : Type) where
  | ok (value : α) : LoadResult α
  | fileNotFound : LoadResult α
  | failure (msg : String) : LoadResult α

/-- Whether a load attempt succeeded. -/
def LoadResult.isOk {α : Type} : LoadResult α → Bool
  | LoadResult.ok _ => true
  | _ => false

/-- `app.py` lines 26-29: the three lines printed by the
`except FileNotFoundError` clause. -/
def fileNotFoundLogs : List String :=
  ["Error: Model files not found at '" ++ MODEL_PATH ++ "' or '" ++ LABEL_ENCODER_PATH ++ "'.",
   "Please ensure the 'models/' directory exists in the project root and contains the '.joblib' files.",
   "You need to train the model first by running the `introvert_extrovert_predictor.ipynb` notebook to generate these files."]

/-- `app.py` lines 18-34: the module-level `try`/`except` that fills the two
globals. The loads run in sequence: the encoder load is only reached when
the classifier load succeeded, and a failure of either leaves the remaining
global(s) `None`, prints a diagnostic and falls through — the module keeps
importing and the Flask app still starts. Returns the resulting state and
the printed lines. -/
def startupLoad (modelLoad : LoadResult Classifier)
    (encoderLoad : LoadResult LabelEncoder) : ModelState × List String :=
  match modelLoad with
  | LoadResult.ok m =>
    match encoderLoad with
    | LoadResult.ok le =>
      (⟨some m, some le⟩,
       ["Model loaded successfully from " ++ MODEL_PATH,
        "Label Encoder loaded successfully from " ++ LABEL_ENCODER_PATH])
    | LoadResult.fileNotFound => (⟨some m, none⟩, fileNotFoundLogs)
    | LoadResult.failure msg =>
      (⟨some m, none⟩, ["An unexpected error occurred while loading model files: " ++ msg])
  | LoadResult.fileNotFound => (⟨none, none⟩, fileNotFoundLogs)
  | LoadResult.failure msg =>
    (⟨none, none⟩, ["An unexpected error occurred while loading model files: " ++ msg])

/-- A request to one of the two routes the app registers. -/
inductive Request where
  | getHome (url_root : String) : Request
  | postPredict (raw : Option Json) : Request

/-- The Flask app's routing (`@app.route` at lines 38 and 85): both routes
exist whatever the load outcome was — importing the module never fails. -/
def app (st : ModelState) : Request → Response
  | Request.getHome u => home u
  | Request.postPredict raw => predict st raw

/-! Concrete artifacts used to instantiate hypotheses at closed inputs: a
classifier that always answers class index 0, one that always raises, and a
two-class encoder matching the spec's Introvert/Extrovert labels. -/

/-- A well-behaved classifier: always the encoded class 0. -/
def okClassifier : Classifier := ⟨fun _ => Except.ok 0⟩

/-- A classifier whose inference always raises. -/
def errClassifier : Classifier := ⟨fun _ => Except.error "boom"⟩

/-- A two-class label encoder. -/
def demoEncoder : LabelEncoder := ⟨["Extrovert", "Introvert"]⟩

/-! Helper lemmas about the embedded handler. -/

/-- On a value that is not `None`, the categorical coercion is the
string-lowering comparison with `"yes"`. -/
theorem catNorm_some (v : Json) (hv : v ≠ Json.null) :
    catNorm (some v) = if pyLower (pyStr v) = "yes" then 1 else 0 := by
  cases v <;> rfl

/-- The feature vector of an object body, component by component: each entry
is the normalization of the lookup of its own field name, in the fixed
order. -/
theorem featureVector_eq (fields : List (String × Json)) :
    featureVector fields =
      [numNorm (dictGet fields "Time_spent_Alone"),
       Cell.num (catNorm (dictGet fields "Stage_fear")),
       numNorm (dictGet fields "Social_event_attendance"),
       numNorm (dictGet fields "Going_outside"),
       Cell.num (catNorm (dictGet fields "Drained_after_socializing")),
       numNorm (dictGet fields "Friends_circle_size"),
       numNorm (dictGet fields "Post_frequency")] := rfl

/-- Removing a binding whose key is not the looked-up field changes no
lookup. -/
theorem dictGet_middle (pre post : List (String × Json)) (k f : String) (v : Json)
    (hne : k ≠ f) :
    dictGet (pre ++ (k, v) :: post) f = dictGet (pre ++ post) f := by
  induction pre with
  | nil =>
    show dictGet ((k, v) :: post) f = dictGet post f
    cases h : dictGet post f with
    | some w => simp [dictGet, h]
    | none => simp [dictGet, h, hne]
  | cons kv rest ih =>
    obtain ⟨k2, v2⟩ := kv
    show dictGet ((k2, v2) :: (rest ++ (k, v) :: post)) f = dictGet ((k2, v2) :: (rest ++ post)) f
    simp only [dictGet, ih]

/-- With both artifacts loaded, a `try`-block success is a 200 prediction. -/
theorem predict_loaded_ok (model : Classifier) (le : LabelEncoder) (raw : Option Json)
    (label : String) (h : predictCore model le raw = Except.ok label) :
    predict ⟨some model, some le⟩ raw = ⟨200, RespBody.jsonPrediction label⟩ := by
  show (match predictCore model le raw with
        | Except.ok label => (⟨200, RespBody.jsonPrediction label⟩ : Response)
        | Except.error e =>
          ⟨500, RespBody.jsonError ("An internal server error occurred during prediction: " ++ e)⟩) =
      _
  rw [h]

/-- With both artifacts loaded, a `try`-block exception is a 500 whose error
message wraps the exception's text. -/
theorem predict_loaded_error (model : Classifier) (le : LabelEncoder) (raw : Option Json)
    (e : String) (h : predictCore model le raw = Except.error e) :
    predict ⟨some model, some le⟩ raw =
      ⟨500, RespBody.jsonError ("An internal server error occurred during prediction: " ++ e)⟩ := by
  show (match predictCore model le raw with
        | Except.ok label => (⟨200, RespBody.jsonPrediction label⟩ : Response)
        | Except.error e =>
          ⟨500, RespBody.jsonError ("An internal server error occurred during prediction: " ++ e)⟩) =
      _
  rw [h]

/-- On an object body the `try` block runs the classifier on exactly the
fixed-order feature vector and pipes its answer into the decoder. -/
theorem predictCore_obj (model : Classifier) (le : LabelEncoder)
    (fields : List (String × Json)) :
    predictCore model le (some (Json.obj fields)) =
      Except.bind (model.predict (featureVector fields)) le.inverse_transform := by
  have h : ∀ r : Except String Nat,
      (match r with
       | Except.error e => (Except.error e : Except String String)
       | Except.ok i =>
         match le.inverse_transform i with
         | Except.error e => Except.error e
         | Except.ok l => Except.ok l) =
      Except.bind r le.inverse_transform := by
    intro r
    cases r with
    | error e => rfl
    | ok i =>
      show (match le.inverse_transform i with
            | Except.error e => (Except.error e : Except String String)
            | Except.ok l => Except.ok l) =
          le.inverse_transform i
      cases le.inverse_transform i <;> rfl
  exact h (model.predict (featureVector fields))

/-- `predictCore_obj`, specialized to a classifier answer. -/
theorem predictCore_obj_ok (model : Classifier) (le : LabelEncoder)
    (fields : List (String × Json)) (i : Nat)
    (h : model.predict (featureVector fields) = Except.ok i) :
    predictCore model le (some (Json.obj fields)) = le.inverse_transform i := by
  rw [predictCore_obj, h]
  rfl

/-- Decoding an in-range class index yields the class at that index. -/
theorem inverse_transform_lt (le : LabelEncoder) (i : Nat) (h : i < le.classes.length) :
    le.inverse_transform i = Except.ok (le.classes.get ⟨i, h⟩) := by
  unfold LabelEncoder.inverse_transform
  rw [List.get?_eq_get h]

/-- C1: if either the classifier or the label encoder failed to load, every
POST /predict request — whatever its body, even an unparseable one — gets
HTTP 500 with body exactly
`\x7b"error": "Prediction service unavailable: Model not loaded on server."\x7d`;
the response does not depend on the body, so no inference and no body
parsing happens. -/
theorem C1_unavailable_500 (st : ModelState)
    (h : st.loaded_model = none ∨ st.loaded_le_personality = none) (raw : Option Json) :
    predict st raw =
      ⟨500, RespBody.jsonError "Prediction service unavailable: Model not loaded on server."⟩ := by
  obtain ⟨m, l⟩ := st
  rcases m with _ | m <;> rcases l with _ | l <;>
    first
      | rfl
      | simp_all

/-- Witness for C1 at the fully-unloaded state and a concrete body. -/
theorem C1_witness :
    predict ⟨none, none⟩ (some (Json.str "x")) =
      ⟨500, RespBody.jsonError "Prediction service unavailable: Model not loaded on server."⟩ :=
  C1_unavailable_500 ⟨none, none⟩ (Or.inl rfl) (some (Json.str "x"))

/-- Counterexample to C2 as stated: `[]` is a syntactically valid JSON body
containing none of the 7 expected fields, the model is loaded and
well-behaved, yet the handler answers 500 (the `AttributeError` of `.get`
on a list, caught by the `except` branch), not 200. -/
theorem C2_counterexample :
    predict ⟨some okClassifier, some demoEncoder⟩ (some (Json.arr [])) =
      ⟨500, RespBody.jsonError
        "An internal server error occurred during prediction: 'list' object has no attribute 'get'"⟩ ∧
    (predict ⟨some okClassifier, some demoEncoder⟩ (some (Json.arr []))).status ≠ 200 :=
  ⟨rfl, by decide⟩

/-- C2 (amended: the body must be a JSON object; a valid non-object body
instead takes the error branch, see the counterexample and C9): for every
JSON object body with none of the 7 expected fields, given loaded artifacts
whose classifier always answers an index within the encoder's classes,
POST /predict returns HTTP 200 with a prediction label drawn from the
encoder's known classes, and the classifier receives the five numeric
fields as missing and the two categorical fields as 0. -/
theorem C2_empty_object_200 (model : Classifier) (le : LabelEncoder)
    (hmodel : ∀ vec : List Cell,
      ∃ i : Nat, model.predict vec = Except.ok i ∧ i < le.classes.length)
    (fields : List (String × Json))
    (hnone : ∀ f ∈ expected_feature_order, dictGet fields f = none) :
    ∃ label, label ∈ le.classes ∧
      predict ⟨some model, some le⟩ (some (Json.obj fields)) =
        ⟨200, RespBody.jsonPrediction label⟩ ∧
      featureVector fields =
        [Cell.missing, Cell.num 0, Cell.missing, Cell.missing,
         Cell.num 0, Cell.missing, Cell.missing] := by
  have e1 := hnone "Time_spent_Alone" (by simp [expected_feature_order])
  have e2 := hnone "Stage_fear" (by simp [expected_feature_order])
  have e3 := hnone "Social_event_attendance" (by simp [expected_feature_order])
  have e4 := hnone "Going_outside" (by simp [expected_feature_order])
  have e5 := hnone "Drained_after_socializing" (by simp [expected_feature_order])
  have e6 := hnone "Friends_circle_size" (by simp [expected_feature_order])
  have e7 := hnone "Post_frequency" (by simp [expected_feature_order])
  have hvec : featureVector fields =
      [Cell.missing, Cell.num 0, Cell.missing, Cell.missing,
       Cell.num 0, Cell.missing, Cell.missing] := by
    rw [featureVector_eq fields, e1, e2, e3, e4, e5, e6, e7]
    rfl
  obtain ⟨i, hok, hlt⟩ := hmodel (featureVector fields)
  refine ⟨le.classes.get ⟨i, hlt⟩, List.get_mem le.classes i hlt, ?_, hvec⟩
  exact predict_loaded_ok model le (some (Json.obj fields)) _
    ((predictCore_obj_ok model le fields i hok).trans (inverse_transform_lt le i hlt))

/-- Witness for C2's amended theorem at a well-behaved concrete model and
the empty object body. -/
theorem C2_witness :
    ∃ label, label ∈ demoEncoder.classes ∧
      predict ⟨some okClassifier, some demoEncoder⟩ (some (Json.obj [])) =
        ⟨200, RespBody.jsonPrediction label⟩ ∧
      featureVector [] =
        [Cell.missing, Cell.num 0, Cell.missing, Cell.missing,
         Cell.num 0, Cell.missing, Cell.missing] :=
  C2_empty_object_200 okClassifier demoEncoder
    (fun _ => ⟨0, rfl, by decide⟩) [] (fun _ _ => rfl)

/-- C3: a present, non-null categorical value is coerced to a string and
compared case-insensitively to "yes" (it normalizes to 1 exactly on
equality of the lowered form, else 0); an absent or null value normalizes
to 0; "YES", "yes" and "Yes" all normalize to 1 — and the row pipeline
applies exactly this map to both `Stage_fear` and
`Drained_after_socializing`. -/
theorem C3_categorical_yes (v : Json) (hv : v ≠ Json.null) (r : RawRow) :
    catNorm (some v) = (if pyLower (pyStr v) = "yes" then 1 else 0) ∧
    catNorm none = 0 ∧
    catNorm (some Json.null) = 0 ∧
    catNorm (some (Json.str "YES")) = 1 ∧
    catNorm (some (Json.str "yes")) = 1 ∧
    catNorm (some (Json.str "Yes")) = 1 ∧
    (normalizeRow r).Stage_fear = Cell.num (catNorm r.Stage_fear) ∧
    (normalizeRow r).Drained_after_socializing =
      Cell.num (catNorm r.Drained_after_socializing) :=
  ⟨catNorm_some v hv, rfl, rfl, by decide, by decide, by decide, rfl, rfl⟩

/-- Witness for C3 at the value "Yes" and the all-absent row. -/
theorem C3_witness :
    catNorm (some (Json.str "Yes")) =
      (if pyLower (pyStr (Json.str "Yes")) = "yes" then 1 else 0) ∧
    catNorm none = 0 ∧
    catNorm (some Json.null) = 0 ∧
    catNorm (some (Json.str "YES")) = 1 ∧
    catNorm (some (Json.str "yes")) = 1 ∧
    catNorm (some (Json.str "Yes")) = 1 ∧
    (normalizeRow ⟨none, none, none, none, none, none, none⟩).Stage_fear =
      Cell.num (catNorm (⟨none, none, none, none, none, none, none⟩ : RawRow).Stage_fear) ∧
    (normalizeRow ⟨none, none, none, none, none, none, none⟩).Drained_after_socializing =
      Cell.num
        (catNorm (⟨none, none, none, none, none, none, none⟩ : RawRow).Drained_after_socializing) :=
  C3_categorical_yes (Json.str "Yes") (fun h => Json.noConfusion h)
    ⟨none, none, none, none, none, none, none⟩

/-- C4: on any JSON object body the classifier receives a vector of exactly
the 7 expected fields in the fixed order, each entry determined by the
lookup of its own field name; two bodies agreeing on those 7 lookups yield
the same vector (so the order of the body's keys is irrelevant); a binding
with a key outside the 7 changes nothing; and the `try` block hands exactly
this vector to the classifier. -/
theorem C4_fixed_order (model : Classifier) (le : LabelEncoder)
    (fields fields2 pre post : List (String × Json)) (k : String) (v : Json)
    (hagree : ∀ f ∈ expected_feature_order, dictGet fields f = dictGet fields2 f)
    (hk : k ∉ expected_feature_order) :
    featureVector fields =
      [numNorm (dictGet fields "Time_spent_Alone"),
       Cell.num (catNorm (dictGet fields "Stage_fear")),
       numNorm (dictGet fields "Social_event_attendance"),
       numNorm (dictGet fields "Going_outside"),
       Cell.num (catNorm (dictGet fields "Drained_after_socializing")),
       numNorm (dictGet fields "Friends_circle_size"),
       numNorm (dictGet fields "Post_frequency")] ∧
    (featureVector fields).length = 7 ∧
    featureVector fields = featureVector fields2 ∧
    featureVector (pre ++ (k, v) :: post) = featureVector (pre ++ post) ∧
    predictCore model le (some (Json.obj fields)) =
      Except.bind (model.predict (featureVector fields)) le.inverse_transform := by
  have hne : ∀ f ∈ expected_feature_order, k ≠ f := fun f hf hkf => hk (hkf ▸ hf)
  refine ⟨featureVector_eq fields, rfl, ?_, ?_, predictCore_obj model le fields⟩
  · rw [featureVector_eq fields, featureVector_eq fields2,
      hagree "Time_spent_Alone" (by simp [expected_feature_order]),
      hagree "Stage_fear" (by simp [expected_feature_order]),
      hagree "Social_event_attendance" (by simp [expected_feature_order]),
      hagree "Going_outside" (by simp [expected_feature_order]),
      hagree "Drained_after_socializing" (by simp [expected_feature_order]),
      hagree "Friends_circle_size" (by simp [expected_feature_order]),
      hagree "Post_frequency" (by simp [expected_feature_order])]
  · rw [featureVector_eq (pre ++ (k, v) :: post), featureVector_eq (pre ++ post),
      dictGet_middle pre post k _ v (hne "Time_spent_Alone" (by simp [expected_feature_order])),
      dictGet_middle pre post k _ v (hne "Stage_fear" (by simp [expected_feature_order])),
      dictGet_middle pre post k _ v
        (hne "Social_event_attendance" (by simp [expected_feature_order])),
      dictGet_middle pre post k _ v (hne "Going_outside" (by simp [expected_feature_order])),
      dictGet_middle pre post k _ v
        (hne "Drained_after_socializing" (by simp [expected_feature_order])),
      dictGet_middle pre post k _ v (hne "Friends_circle_size" (by simp [expected_feature_order])),
      dictGet_middle pre post k _ v (hne "Post_frequency" (by simp [expected_feature_order]))]

/-- Witness for C4: the empty body against a body holding only an
extraneous key, and an extraneous binding inserted into an empty body. -/
theorem C4_witness :
    featureVector [] =
      [numNorm (dictGet [] "Time_spent_Alone"),
       Cell.num (catNorm (dictGet [] "Stage_fear")),
       numNorm (dictGet [] "Social_event_attendance"),
       numNorm (dictGet [] "Going_outside"),
       Cell.num (catNorm (dictGet [] "Drained_after_socializing")),
       numNorm (dictGet [] "Friends_circle_size"),
       numNorm (dictGet [] "Post_frequency")] ∧
    (featureVector []).length = 7 ∧
    featureVector [] = featureVector [("extra", Json.int 1)] ∧
    featureVector ([] ++ ("extra", Json.int 5) :: []) = featureVector ([] ++ []) ∧
    predictCore okClassifier demoEncoder (some (Json.obj [])) =
      Except.bind (okClassifier.predict (featureVector [])) demoEncoder.inverse_transform :=
  C4_fixed_order okClassifier demoEncoder [] [("extra", Json.int 1)] [] [] "extra" (Json.int 5)
    (by intro f hf; fin_cases hf <;> rfl) (by decide)

/-- C5: each numeric field goes through the numeric parse of
`pd.to_numeric(errors='coerce')`: a string that fails to parse, an absent
field and a null all become the missing sentinel rather than an error, a
string that parses becomes its number, and assembling the row never raises
— on any object body the extraction step returns the row, exceptions
impossible by type. -/
theorem C5_numeric_coerce (s : String) (fields : List (String × Json))
    (hbad : parsePyFloat s = none) :
    numNorm (some (Json.str s)) = Cell.missing ∧
    numNorm none = Cell.missing ∧
    numNorm (some Json.null) = Cell.missing ∧
    (∀ t q, parsePyFloat t = some q → numNorm (some (Json.str t)) = Cell.num q) ∧
    input_features (Json.obj fields) = Except.ok (buildRawRow fields) := by
  refine ⟨?_, rfl, rfl, ?_, rfl⟩
  · show (match parsePyFloat s with
          | some q => Cell.num q
          | none => Cell.missing) = Cell.missing
    rw [hbad]
  · intro t q h
    show (match parsePyFloat t with
          | some q => Cell.num q
          | none => Cell.missing) = Cell.num q
    rw [h]

/-- Witness for C5 at the unparseable string "abc" and a one-field body. -/
theorem C5_witness :
    numNorm (some (Json.str "abc")) = Cell.missing ∧
    numNorm none = Cell.missing ∧
    numNorm (some Json.null) = Cell.missing ∧
    (∀ t q, parsePyFloat t = some q → numNorm (some (Json.str t)) = Cell.num q) ∧
    input_features (Json.obj [("Stage_fear", Json.str "Yes")]) =
      Except.ok (buildRawRow [("Stage_fear", Json.str "Yes")]) :=
  C5_numeric_coerce "abc" [("Stage_fear", Json.str "Yes")] rfl

/-- C6: with the artifacts loaded, any exception of the `try` block — body
parsing, extraction, inference or decoding — is caught and surfaced as
HTTP 500 with an error payload that wraps the exception's own text; and no
request ever escapes the handler: every response is a 200 or a 500. -/
theorem C6_exceptions_caught (model : Classifier) (le : LabelEncoder) (raw : Option Json)
    (e : String) (herr : predictCore model le raw = Except.error e) :
    predict ⟨some model, some le⟩ raw =
      ⟨500, RespBody.jsonError ("An internal server error occurred during prediction: " ++ e)⟩ ∧
    (∀ (st : ModelState) (raw2 : Option Json),
      (predict st raw2).status = 200 ∨ (predict st raw2).status = 500) := by
  refine ⟨predict_loaded_error model le raw e herr, ?_⟩
  intro st raw2
  obtain ⟨m, l⟩ := st
  rcases m with _ | m
  · right; rfl
  rcases l with _ | l
  · right; rfl
  cases h : predictCore m l raw2 with
  | ok label => left; rw [predict_loaded_ok m l raw2 label h]
  | error e2 => right; rw [predict_loaded_error m l raw2 e2 h]

/-- Witness for C6 at a classifier whose inference raises "boom". -/
theorem C6_witness :
    predict ⟨some errClassifier, some demoEncoder⟩ (some (Json.obj [])) =
      ⟨500, RespBody.jsonError
        ("An internal server error occurred during prediction: " ++ "boom")⟩ ∧
    (∀ (st : ModelState) (raw2 : Option Json),
      (predict st raw2).status = 200 ∨ (predict st raw2).status = 500) :=
  C6_exceptions_caught errClassifier demoEncoder (some (Json.obj [])) "boom" rfl

/-- C7: when either artifact load fails — file absent or any other
exception — the startup leaves the model state unavailable, prints a
diagnostic, and does not terminate: the routes still exist and GET /
still answers HTTP 200. -/
theorem C7_load_failure_nonfatal (modelLoad : LoadResult Classifier)
    (encoderLoad : LoadResult LabelEncoder) (u : String)
    (hfail : (modelLoad.isOk && encoderLoad.isOk) = false) :
    (startupLoad modelLoad encoderLoad).1.available = false ∧
    (startupLoad modelLoad encoderLoad).2 ≠ [] ∧
    app (startupLoad modelLoad encoderLoad).1 (Request.getHome u) =
      ⟨200, RespBody.html (welcome_message u)⟩ := by
  cases modelLoad with
  | ok m =>
    cases encoderLoad with
    | ok le => simp [LoadResult.isOk] at hfail
    | fileNotFound => exact ⟨rfl, List.cons_ne_nil _ _, rfl⟩
    | failure msg => exact ⟨rfl, List.cons_ne_nil _ _, rfl⟩
  | fileNotFound => exact ⟨rfl, List.cons_ne_nil _ _, rfl⟩
  | failure msg => exact ⟨rfl, List.cons_ne_nil _ _, rfl⟩

/-- Witness for C7 at a missing model file. -/
theorem C7_witness :
    (startupLoad (LoadResult.fileNotFound : LoadResult Classifier)
      (LoadResult.fileNotFound : LoadResult LabelEncoder)).1.available = false ∧
    (startupLoad (LoadResult.fileNotFound : LoadResult Classifier)
      (LoadResult.fileNotFound : LoadResult LabelEncoder)).2 ≠ [] ∧
    app (startupLoad (LoadResult.fileNotFound : LoadResult Classifier)
        (LoadResult.fileNotFound : LoadResult LabelEncoder)).1
      (Request.getHome "http://localhost:5000/") =
      ⟨200, RespBody.html (welcome_message "http://localhost:5000/")⟩ :=
  C7_load_failure_nonfatal LoadResult.fileNotFound LoadResult.fileNotFound
    "http://localhost:5000/" rfl

/-- C8: every GET / returns HTTP 200 with the HTML page — a pure function of
the request's URL root, so no side effects and no error path — and the page
contains the requesting host's URL root with the literal "predict" appended
(the example endpoint URL reflects the current host). -/
theorem C8_home_page (url_root : String) :
    home url_root = ⟨200, RespBody.html (welcome_message url_root)⟩ ∧
    ∃ textBefore textAfter,
      welcome_message url_root = textBefore ++ (url_root ++ "predict") ++ textAfter :=
  ⟨rfl, welcomeHead, welcomeTail, rfl⟩

/-- C9: a request body that is valid JSON but not a JSON object (array,
number, string, boolean or null) makes the handler, with the model loaded,
answer HTTP 500 with a JSON error payload — field extraction calls `.get`
on the parsed value, the `AttributeError` lands in the `except` branch —
never HTTP 200. -/
theorem C9_nonobject_500 (model : Classifier) (le : LabelEncoder) (j : Json)
    (hobj : ∀ fields, j ≠ Json.obj fields) :
    ∃ msg, predict ⟨some model, some le⟩ (some j) = ⟨500, RespBody.jsonError msg⟩ ∧
      (predict ⟨some model, some le⟩ (some j)).status ≠ 200 := by
  have hcore : predictCore model le (some j) =
      Except.error ("'" ++ pyTypeName j ++ "' object has no attribute 'get'") := by
    cases j with
    | obj fields => exact absurd rfl (hobj fields)
    | null => rfl
    | bool b => rfl
    | int n => rfl
    | float m e => rfl
    | str s => rfl
    | arr items => rfl
  refine ⟨_, predict_loaded_error model le (some j) _ hcore, ?_⟩
  rw [predict_loaded_error model le (some j) _ hcore]
  show (500 : Nat) ≠ 200
  decide

/-- Witness for C9 at the JSON array body `[]`. -/
theorem C9_witness :
    ∃ msg,
      predict ⟨some okClassifier, some demoEncoder⟩ (some (Json.arr [])) =
        ⟨500, RespBody.jsonError msg⟩ ∧
      (predict ⟨some okClassifier, some demoEncoder⟩ (some (Json.arr []))).status ≠ 200 :=
  C9_nonobject_500 okClassifier demoEncoder (Json.arr []) (fun _ h => Json.noConfusion h)

/-- C10: a non-null categorical value normalizes to 1 exactly when its
Python string form lowercases to "yes"; in particular the JSON boolean
`true` (str "True") and the JSON number `1` (str "1") both normalize to 0,
not 1. -/
theorem C10_nonstring_categorical (v : Json) (hv : v ≠ Json.null) :
    (catNorm (some v) = 1 ↔ pyLower (pyStr v) = "yes") ∧
    catNorm (some (Json.bool true)) = 0 ∧
    catNorm (some (Json.int 1)) = 0 := by
  refine ⟨?_, by decide, by decide⟩
  rw [catNorm_some v hv]
  split
  · rename_i h
    exact iff_of_true rfl h
  · rename_i h
    exact iff_of_false (by norm_num) h

/-- Witness for C10 at the JSON boolean `true`. -/
theorem C10_witness :
    (catNorm (some (Json.bool true)) = 1 ↔ pyLower (pyStr (Json.bool true)) = "yes") ∧
    catNorm (some (Json.bool true)) = 0 ∧
    catNorm (some (Json.int 1)) = 0 :=
  C10_nonstring_categorical (Json.bool true) (fun h => Json.noConfusion h)

end PersonalityApp
